import Mathlib

/-!
Verification of the `code-input` library (src/code-input/code-input.js)
against its natural-language specification.

The JavaScript source is shallowly embedded: strings are lists of
characters, the DOM nodes owned by a `<code-input>` element are explicit
records, the template registry is an explicit state record, and JS
exceptions are `Except` errors that carry the state at the moment of the
throw (so that "state unchanged on failure" is a real statement, not an
artifact of the monad).

Modelling conventions:
- Plugins are external code (the spec places the highlighting/plugin
  bodies out of scope).  The element model fixes the plugin list of the
  resolved template to be empty; `pluginEvt` over an empty plugin list is
  the identity, but it still dereferences `this.template.plugins`, so the
  model keeps the TypeError that a missing template causes there.
- The template's `highlight` function is modelled per the spec's external
  contract — "takes styled-text-container, produces marked-up output" —
  as a function on the display container's content.
- DOM event listeners are identified by numeric ids; `listener.bind(this)`
  produces a distinct bound-callback id.
-/

namespace CodeInputJs

/-- Strings are modelled as lists of characters (JS strings, restricted to
the scalar values Lean's `Char` carries). -/
abbrev Str := List Char

/-- Conversion from Lean string literals to the model's string type. -/
def chars (s : String) : Str := s.data

/-- Boolean prefix test on character lists, used to model the left-to-right
scan of JavaScript's global `String.replace`. -/
def isPrefixOfC : Str → Str → Bool
  | [], _ => true
  | _ :: _, [] => false
  | a :: as, b :: bs => a == b && isPrefixOfC as bs

/-- Scanner underlying `replaceFrom`: while the skip counter is positive
the scanner is crossing the tail of a match it has already replaced. -/
def replaceGo (p : Char) (ps repl : Str) : Nat → Str → Str
  | _, [] => []
  | 0, c :: rest =>
      if isPrefixOfC (p :: ps) (c :: rest) then
        repl ++ replaceGo p ps repl ps.length rest
      else
        c :: replaceGo p ps repl 0 rest
  | k + 1, _ :: rest => replaceGo p ps repl k rest

/-- Model of `l.replace(new RegExp(pat, "g"), repl)`: `replaceFrom p ps repl l`,
for the literal pattern `pat = p :: ps`: a single left-to-right scan,
non-overlapping matches, and replacement text that is never rescanned. -/
def replaceFrom (p : Char) (ps : Str) (repl : Str) (l : Str) : Str :=
  replaceGo p ps repl 0 l

/-- Decidable substring test (used to state the "no pre-existing entities"
hypothesis of the escape/unescape round-trip). -/
def hasSubstr (pat : Str) : Str → Bool
  | [] => isPrefixOfC pat []
  | c :: rest => isPrefixOfC pat (c :: rest) || hasSubstr pat rest

/-- Embedding of `CodeInput.escapeHtml`: `text.replace(/&/g, "&amp;").replace(/</g, "&lt;")`. -/
def escapeHtml (text : Str) : Str :=
  replaceFrom '<' [] ['&', 'l', 't', ';'] (replaceFrom '&' [] ['&', 'a', 'm', 'p', ';'] text)

/-- Embedding of `CodeInput.unescapeHtml`:
`text.replace(/&amp;/g, "&").replace(/&lt;/g, "<").replace(/&gt;/g, ">")`. -/
def unescapeHtml (text : Str) : Str :=
  replaceFrom '&' ['g', 't', ';'] ['>']
    (replaceFrom '&' ['l', 't', ';'] ['<']
      (replaceFrom '&' ['a', 'm', 'p', ';'] ['&'] text))

/-- Character-wise expansion map; `escAll f l` concatenates `f c` over `l`. -/
def escAll (f : Char → Str) : Str → Str
  | [] => []
  | c :: rest => f c ++ escAll f rest

/-- The per-character action of `escapeHtml`: `&` and `<` expand to their
entities, every other character is kept. -/
def escChar (c : Char) : Str :=
  if c = '&' then ['&', 'a', 'm', 'p', ';'] else if c = '<' then ['&', 'l', 't', ';'] else [c]

/-- The per-character residue after undoing the `&amp;` step: only `<` is
still entity-encoded. -/
def escLtChar (c : Char) : Str :=
  if c = '<' then ['&', 'l', 't', ';'] else [c]

/-- Model of `text.toLowerCase()` (ASCII suffices for the attributes the claims use). -/
def jsToLower (text : Str) : Str := text.map Char.toLower

/-- JS `a || b` on a nullable string `a` and string fallback `b`:
`null` and the empty string are falsy. -/
def jsOr (a : Option Str) (b : Str) : Str :=
  match a with
  | some s => if s.isEmpty then b else s
  | none => b

/-- DOMString coercion of a nullable JS string (assigning `null` to a
DOMString-typed IDL attribute stores the text "null"). -/
def jsDomString (v : Option Str) : Str :=
  match v with
  | some s => s
  | none => chars ("null")

/-- Association-list lookup, modelling JS object property access. -/
def lookupK {κ β : Type} [BEq κ] (l : List (κ × β)) (k : κ) : Option β :=
  (l.find? (fun p => p.1 == k)).map (fun p => p.2)

/-- Association-list write, modelling JS object property assignment
(insertion order preserved, existing key overwritten in place). -/
def upsertK {κ β : Type} [BEq κ] (l : List (κ × β)) (k : κ) (v : β) : List (κ × β) :=
  if l.any (fun p => p.1 == k) then
    l.map (fun p => if p.1 == k then (k, v) else p)
  else
    l ++ [(k, v)]

/- ------------------------------------------------------------------
   Template registry (the `codeInput` global object).
   Descriptor fields hold arbitrary JS values, so that the validation in
   `registerTemplate` is a real check.
   ------------------------------------------------------------------ -/

/-- A JS value as far as the registry's validation can distinguish them. -/
inductive TVal where
  | fn (id : Nat) : TVal
  | boolean (b : Bool) : TVal
  | pluginInst (id : Nat) : TVal
  | arr (elems : List TVal) : TVal
  | strV (s : Str) : TVal
  | undef : TVal

/-- Test `typeof v == "function" || v instanceof Function`. -/
def isFun : TVal → Bool
  | .fn _ => true
  | _ => false

/-- Test `typeof v == "boolean" || v instanceof Boolean`. -/
def isBool : TVal → Bool
  | .boolean _ => true
  | _ => false

/-- Test `v instanceof codeInput.Plugin`. -/
def isPlugin : TVal → Bool
  | .pluginInst _ => true
  | _ => false

/-- A template descriptor as passed to `codeInput.registerTemplate`. -/
structure Template where
  highlight : TVal
  preElementStyled : TVal
  isCode : TVal
  includeCodeInputInHighlightFunc : TVal
  plugins : TVal

/-- The `TypeError`s `registerTemplate` can throw, tagged by the offending
descriptor field (the thrown message names the field). -/
inductive RegErr where
  | badHighlight : RegErr
  | badIncludeCodeInput : RegErr
  | badPreElementStyled : RegErr
  | badIsCode : RegErr
  | badPluginsNotArray : RegErr
  | badPluginEntry (i : Nat) : RegErr
deriving DecidableEq, Repr

/-- The registry's process-wide state: `codeInput.usedTemplates`,
`codeInput.defaultTemplate` and `codeInput.templateNotYetRegisteredQueue`.
Queued elements are identified by numeric ids. -/
structure RegState where
  usedTemplates : List (Str × Template)
  defaultTemplate : Option Str
  templateNotYetRegisteredQueue : List (Str × List Nat)

/-- The `template.plugins.forEach` validation loop: index of the first
entry that is not a `codeInput.Plugin` instance, if any (the loop throws
at the first such entry). -/
def checkPlugins : List TVal → Option Nat
  | [] => none
  | p :: rest => if isPlugin p then (checkPlugins rest).map (fun i => i + 1) else some 0

/-- Embedding of `codeInput.registerTemplate` (the `templateName` string-ness check of
line 106 always passes here since names are strings in the model).
Returns the new registry state and the ids of elements whose
`connectedCallback` the flush schedules, in order; a thrown `TypeError`
carries the state at the throw.  Note the queue entry for a flushed name
is read but never deleted. -/
def codeInput.registerTemplate (st : RegState) (templateName : Str) (template : Template) :
    Except (RegErr × RegState) (RegState × List Nat) :=
  if isFun template.highlight = false then .error (.badHighlight, st)
  else if isBool template.includeCodeInputInHighlightFunc = false then
    .error (.badIncludeCodeInput, st)
  else if isBool template.preElementStyled = false then .error (.badPreElementStyled, st)
  else if isBool template.isCode = false then .error (.badIsCode, st)
  else
    match template.plugins with
    | TVal.arr pluginList =>
      match checkPlugins pluginList with
      | some i => .error (.badPluginEntry i, st)
      | none =>
        let st1 : RegState :=
          { st with usedTemplates := upsertK st.usedTemplates templateName template }
        let flushedName := (lookupK st1.templateNotYetRegisteredQueue templateName).getD []
        if st1.defaultTemplate.isNone then
          let st2 : RegState := { st1 with defaultTemplate := some templateName }
          let flushedDefault :=
            (lookupK st2.templateNotYetRegisteredQueue (chars ("undefined"))).getD []
          .ok (st2, flushedName ++ flushedDefault)
        else
          .ok (st1, flushedName)
    | _ => .error (.badPluginsNotArray, st)

/-- Embedding of `CodeInput.getTemplate` at the registry level: resolve the element's
`template` attribute (or the default), queueing the element id when the
name is not registered.  A JS object indexed with `undefined` uses the
string key "undefined". -/
def CodeInput.getTemplate (st : RegState) (elemId : Nat) (templateAttr : Option Str) :
    Option Template × RegState :=
  let templateName : Option Str :=
    match templateAttr with
    | none => st.defaultTemplate
    | some a => some a
  let key : Str :=
    match templateName with
    | none => chars ("undefined")
    | some n => n
  match lookupK st.usedTemplates key with
  | some t => (some t, st)
  | none =>
    let q := (lookupK st.templateNotYetRegisteredQueue key).getD []
    (none,
      { st with templateNotYetRegisteredQueue :=
          upsertK st.templateNotYetRegisteredQueue key (q ++ [elemId]) })

/-- The claim-side well-formedness failure condition for a descriptor. -/
def malformedTemplate (template : Template) : Prop :=
  isFun template.highlight = false ∨
  isBool template.includeCodeInputInHighlightFunc = false ∨
  isBool template.preElementStyled = false ∨
  isBool template.isCode = false ∨
  (∀ l, template.plugins ≠ TVal.arr l) ∨
  (∃ l i p, template.plugins = TVal.arr l ∧ l.get? i = some p ∧ isPlugin p = false)

/-- The error raised by `registerTemplate` names a field that really is
malformed in the descriptor. -/
def regErrIdentifiesField (err : RegErr) (template : Template) : Prop :=
  match err with
  | .badHighlight => isFun template.highlight = false
  | .badIncludeCodeInput => isBool template.includeCodeInputInHighlightFunc = false
  | .badPreElementStyled => isBool template.preElementStyled = false
  | .badIsCode => isBool template.isCode = false
  | .badPluginsNotArray => ∀ l, template.plugins ≠ TVal.arr l
  | .badPluginEntry i =>
      ∃ l p, template.plugins = TVal.arr l ∧ l.get? i = some p ∧ isPlugin p = false

/-- Whether an `Except` computation succeeded. -/
def exceptIsOk {ε α : Type} : Except ε α → Bool
  | .ok _ => true
  | .error _ => false

/- ------------------------------------------------------------------
   The element (`codeInput.CodeInput`) model.
   ------------------------------------------------------------------ -/

/-- A DOM event callback: either a raw consumer listener or the result of
`listener.bind(this)`. -/
inductive CB where
  | raw (id : Nat) : CB
  | bound (id : Nat) : CB
deriving DecidableEq, Repr

/-- The inner `<textarea>` (editable surface). -/
structure TextareaState where
  value : Str
  placeholder : Str
  innerHTML : Str
  attrs : List (Str × Str)
  listeners : List (Str × CB)
deriving DecidableEq, Repr

/-- The `<pre>` wrapper of the display surface. -/
structure PreState where
  classList : List Str
  attrs : List (Str × Str)
deriving DecidableEq, Repr

/-- The `<code>` display node (its `innerHTML` is the rendered content). -/
structure CodeState where
  innerHTML : Str
  classList : List Str
deriving DecidableEq, Repr

/-- A resolved template as the element uses it: a validated descriptor
with an opaque highlight function acting on the display content (the
spec's external contract for highlighters), and an empty plugin list. -/
structure ResolvedTemplate where
  highlight : Str → Str
  preElementStyled : Bool
  isCode : Bool
  includeCodeInputInHighlightFunc : Bool

/-- A listener registered for the element's "code-input_load" event:
either a deferred `update(value)` replay (from `update` before the
surfaces exist) or a deferred attach of a bound callback onto the
textarea (from `addEventListener` on a rebound event type before the
surfaces exist). -/
inductive LoadEvt where
  | replayUpdate (value : Str) : LoadEvt
  | attachListener (type : Str) (boundId : Nat) : LoadEvt
deriving DecidableEq, Repr

/-- A thrown JS exception (the claims only need TypeError). -/
inductive JsError where
  | typeError : JsError
deriving DecidableEq, Repr

/-- The state of one `<code-input>` element. -/
structure ElemState where
  _value : Str
  textareaElement : Option TextareaState
  preElement : Option PreState
  codeElement : Option CodeState
  attrs : List (Str × Str)
  innerHTML : Str
  classList : List Str
  template : Option ResolvedTemplate
  initialValue : Str
  ignoreValueUpdate : Bool
  isConnected : Bool
  pendingLoad : List LoadEvt
  boundEventCallbacks : List (Nat × Nat)
  nextBoundId : Nat
  elemListeners : List (Str × CB)
  setupQueuedOnWindowLoad : Bool

/-- Model of `classList.add` (DOMTokenList: no duplicates). -/
def addClass (l : List Str) (c : Str) : List Str :=
  if c ∈ l then l else l ++ [c]

/-- Model of `classList.remove`. -/
def removeClass (l : List Str) (c : Str) : List Str :=
  l.filter (fun x => x ≠ c)

/-- Model of `addEventListener` on a DOM node: re-adding an identical
(type, callback) pair is a no-op. -/
def attachL (ls : List (Str × CB)) (t : Str) (c : CB) : List (Str × CB) :=
  if (t, c) ∈ ls then ls else ls ++ [(t, c)]

/-- Model of `removeEventListener` on a DOM node. -/
def detachL (ls : List (Str × CB)) (t : Str) (c : CB) : List (Str × CB) :=
  ls.filter (fun x => x ≠ (t, c))

/-- Model of `setAttribute` on the textarea. -/
def setAttrT (ta : TextareaState) (name v : Str) : TextareaState :=
  { ta with attrs := upsertK ta.attrs name v }

/-- Model of `removeAttribute` on the textarea. -/
def removeAttrT (ta : TextareaState) (name : Str) : TextareaState :=
  { ta with attrs := ta.attrs.filter (fun p => p.1 ≠ name) }

/-- Test `value[value.length - 1] == "\n"`. -/
def lastIsNewline (value : Str) : Bool :=
  value.getLast? == some '\n'

/-- The list `codeInput.textareaSyncEvents`. -/
def textareaSyncEvents : List Str :=
  [chars ("change"), chars ("selectionchange"), chars ("invalid"), chars ("input")]

/-- The list `codeInput.textareaSyncAttributes` after the load-time
`arrayWildcards2regex` pass removed the `aria-*` wildcard entry. -/
def textareaSyncAttributesLiteral : List Str :=
  [chars ("value"), chars ("min"), chars ("max"), chars ("type"), chars ("pattern"),
   chars ("autocomplete"), chars ("autocorrect"), chars ("autofocus"), chars ("cols"),
   chars ("dirname"), chars ("disabled"), chars ("form"), chars ("maxlength"),
   chars ("minlength"), chars ("name"), chars ("placeholder"), chars ("readonly"),
   chars ("required"), chars ("rows"), chars ("spellcheck"), chars ("wrap")]

/-- The compiled `aria-*` wildcard: the case-insensitive regex
`^aria\-.*$`. -/
def matchesAriaWildcard (name : Str) : Bool :=
  isPrefixOfC (chars ("aria-")) (jsToLower name)

/-- Embedding of `CodeInput.update`.  The `this.value = value` assignment runs under the
`ignoreValueUpdate` flag, so its nested `update` call returns immediately
and its net effect is `_value := value`; the flag itself ends `false`
again.  `pluginEvt("beforeHighlight")` / `("afterHighlight")` iterate the
(empty) plugin list but dereference `this.template.plugins` first. -/
def CodeInput.update (e : ElemState) (value : Str) :
    Except (JsError × ElemState) ElemState :=
  if e.ignoreValueUpdate then .ok e
  else
    match e.textareaElement with
    | none =>
      -- this.addEventListener("code-input_load", () => this.update(value))
      .ok { e with pendingLoad := e.pendingLoad ++ [LoadEvt.replayUpdate value] }
    | some ta =>
      let e1 : ElemState :=
        { e with
          _value := value,
          textareaElement := some (if ta.value = value then ta else { ta with value := value }) }
      match e1.codeElement with
      | none => .error (.typeError, e1)  -- resultElement.innerHTML write on null
      | some code =>
        let displayValue := if lastIsNewline value then value ++ [' '] else value
        let code1 : CodeState := { code with innerHTML := escapeHtml displayValue }
        let e2 : ElemState := { e1 with codeElement := some code1 }
        match e2.template with
        | none => .error (.typeError, e2)  -- pluginEvt reads this.template.plugins
        | some tpl =>
          .ok { e2 with codeElement := some { code1 with innerHTML := tpl.highlight code1.innerHTML } }

/-- Running one "code-input_load" listener (exceptions inside a listener
do not stop event dispatch, see `dispatchLoad`). -/
def runLoadEvt (e : ElemState) (evt : LoadEvt) : Except (JsError × ElemState) ElemState :=
  match evt with
  | .replayUpdate v => CodeInput.update e v
  | .attachListener t b =>
    match e.textareaElement with
    | none => .error (.typeError, e)
    | some ta =>
      .ok { e with textareaElement := some { ta with listeners := attachL ta.listeners t (CB.bound b) } }

/-- One step of load-event dispatch: DOM event dispatch reports but
swallows an exception thrown by a listener, keeping the state mutated so
far. -/
def loadStep (acc : ElemState) (evt : LoadEvt) : ElemState :=
  match runLoadEvt acc evt with
  | .ok st => st
  | .error (_, st) => st

/-- Model of `this.dispatchEvent(new CustomEvent("code-input_load"))`: run the
registered load listeners in registration order (the listener list itself
is not consumed). -/
def dispatchLoad (e : ElemState) : ElemState :=
  e.pendingLoad.foldl loadStep e

/-- First-time textarea attribute fan-out over the literal sync list. -/
def syncLiteralAttrs (attrs : List (Str × Str)) (ta : TextareaState) : TextareaState :=
  textareaSyncAttributesLiteral.foldl
    (fun t a =>
      match lookupK attrs a with
      | some v => setAttrT t a v
      | none => t)
    ta

/-- First-time textarea attribute fan-out over the `aria-*` wildcard. -/
def syncWildcardAttrs (attrs : List (Str × Str)) (ta : TextareaState) : TextareaState :=
  attrs.foldl
    (fun t p => if matchesAriaWildcard p.1 then setAttrT t p.1 p.2 else t)
    ta

/-- Embedding of `CodeInput.setup`.  The textarea's internal 'input' and 'scroll'
listeners (element-internal closures driving `update`/`syncScroll`) are
not modelled; `pluginEvt("beforeElementsAdded")`/`("afterElementsAdded")`
iterate the empty plugin list (identity, template known present here). -/
def CodeInput.setup (e : ElemState) : Except (JsError × ElemState) ElemState :=
  if e.textareaElement.isSome then .ok e  -- already set up
  else
    let e0 : ElemState := { e with classList := addClass e.classList (chars ("code-input_registered")) }
    match e0.template with
    | none => .error (.typeError, e0)  -- this.template.preElementStyled on undefined
    | some tpl =>
      let e1 : ElemState :=
        if tpl.preElementStyled then
          { e0 with classList := addClass e0.classList (chars ("code-input_pre-element-styled")) }
        else e0
      let lang := lookupK e1.attrs (chars ("lang"))
      let placeholder :=
        jsOr (lookupK e1.attrs (chars ("placeholder"))) (jsOr (lookupK e1.attrs (chars ("lang"))) [])
      let value :=
        jsOr (some (unescapeHtml e1.innerHTML)) (jsOr (lookupK e1.attrs (chars ("value"))) [])
      let e2 : ElemState := { e1 with initialValue := value }
      -- `textarea.value = value` is guarded by `value != ""`, but a fresh
      -- textarea's value is "" so the net value is `value` either way
      let ta0 : TextareaState :=
        { value := value, placeholder := placeholder, innerHTML := e2.innerHTML,
          attrs := [(chars ("spellcheck"), chars ("false"))], listeners := [] }
      let e3 : ElemState := { e2 with innerHTML := [] }
      let ta1 := syncWildcardAttrs e3.attrs (syncLiteralAttrs e3.attrs ta0)
      let e4 : ElemState := { e3 with textareaElement := some ta1 }
      let pre : PreState := { classList := [], attrs := [(chars ("aria-hidden"), chars ("true"))] }
      let code0 : CodeState := { innerHTML := [], classList := [] }
      let code1 :=
        if tpl.isCode then
          match lang with
          | some lg =>
            if lg.isEmpty then code0
            else { code0 with classList := addClass code0.classList (chars ("language-") ++ lg) }
          | none => code0
        else code0
      let e5 : ElemState := { e4 with preElement := some pre, codeElement := some code1 }
      match CodeInput.update e5 value with
      | .error err => .error err
      | .ok e6 => .ok (dispatchLoad e6)

/-- Embedding of `CodeInput.connectedCallback`, with the result of the registry-side
`getTemplate` resolution passed in as `resolved` and the one-time
`runOnceWindowLoaded` gate as `windowLoaded` (the MutationObserver wiring
is attribute-observation plumbing and not modelled). -/
def CodeInput.connectedCallback (resolved : Option ResolvedTemplate) (windowLoaded : Bool)
    (e : ElemState) : Except (JsError × ElemState) ElemState :=
  let e1 : ElemState := { e with template := resolved }
  match resolved with
  | none => .ok e1
  | some _ =>
    let e2 : ElemState := { e1 with classList := addClass e1.classList (chars ("code-input_registered")) }
    if windowLoaded then
      match CodeInput.setup e2 with
      | .error err => .error err
      | .ok e3 => .ok { e3 with classList := addClass e3.classList (chars ("code-input_loaded")) }
    else
      .ok { e2 with setupQueuedOnWindowLoad := true }

/-- The tail of the `lang` attribute reaction, from the unconditional
`oldValue.toLowerCase()` on: `nvLower` is the already-lowercased local
`newValue` (still `none` when the attribute was removed). -/
def langCaseRest (e : ElemState) (oldValue : Option Str) (nvLower : Option Str) :
    Except (JsError × ElemState) ElemState :=
  match oldValue with
  | none => .error (.typeError, e)  -- oldValue.toLowerCase() on null
  | some ov0 =>
    let ov := jsToLower ov0
    match e.codeElement, e.preElement, e.textareaElement with
    | some code, some pre, some ta =>
      let codeCL := removeClass (removeClass code.classList (chars ("language-") ++ ov)) (chars ("language-none"))
      let preCL := removeClass (removeClass pre.classList (chars ("language-") ++ ov)) (chars ("language-none"))
      let code1 : CodeState := { code with classList := codeCL }
      let pre1 : PreState := { pre with classList := preCL }
      let code2 : CodeState :=
        match nvLower with
        | some nv =>
          if nv.isEmpty then code1
          else { code1 with classList := addClass code1.classList (chars ("language-") ++ nv) }
        | none => code1
      let ta1 : TextareaState :=
        if ta.placeholder = ov then { ta with placeholder := jsDomString nvLower } else ta
      let e1 : ElemState :=
        { e with codeElement := some code2, preElement := some pre1, textareaElement := some ta1 }
      CodeInput.update e1 e1._value
    | _, _, _ => .error (.typeError, e)  -- classList access on a null node

/-- The `lang` case of `attributeChangedCallback`: the "already updated"
short-circuit, then `langCaseRest`. -/
def langCase (e : ElemState) (oldValue newValue : Option Str) :
    Except (JsError × ElemState) ElemState :=
  match newValue with
  | some nv0 =>
    let nv := jsToLower nv0
    match e.codeElement with
    | none => .error (.typeError, e)  -- code.classList.contains on null
    | some code =>
      if (chars ("language-") ++ nv) ∈ code.classList then .ok e  -- break: already updated
      else langCaseRest e oldValue (some nv)
  | none => langCaseRest e oldValue none

/-- Embedding of `CodeInput.attributeChangedCallback`.  `usedTemplates` and
`defaultTemplate` stand for the registry lookups of the `template` case;
`pluginEvt("attributeChanged", ...)` iterates the empty plugin list but
dereferences `this.template.plugins` first. -/
def CodeInput.attributeChangedCallback (usedTemplates : Str → Option ResolvedTemplate)
    (defaultTemplate : Option Str) (e : ElemState) (name : Str)
    (oldValue newValue : Option Str) : Except (JsError × ElemState) ElemState :=
  if e.isConnected = false then .ok e
  else
    match e.template with
    | none => .error (.typeError, e)  -- pluginEvt reads this.template.plugins
    | some _ =>
      if name = chars ("value") then
        -- this.value = newValue (the value setter coerces null to "")
        let val := match newValue with | none => [] | some v => v
        CodeInput.update { e with _value := val } val
      else if name = chars ("placeholder") then
        match e.textareaElement with
        | none => .error (.typeError, e)
        | some ta =>
          .ok { e with textareaElement := some { ta with placeholder := jsDomString newValue } }
      else if name = chars ("template") then
        -- this.template = codeInput.usedTemplates[newValue || codeInput.defaultTemplate]
        let key : Option Str :=
          match newValue with
          | some nv => if nv.isEmpty then defaultTemplate else some nv
          | none => defaultTemplate
        let tpl? := match key with | none => none | some k => usedTemplates k
        let e1 : ElemState := { e with template := tpl? }
        match tpl? with
        | none => .error (.typeError, e1)  -- this.template.preElementStyled on undefined
        | some tpl =>
          let e2 : ElemState :=
            if tpl.preElementStyled then
              { e1 with classList := addClass e1.classList (chars ("code-input_pre-element-styled")) }
            else
              { e1 with classList := removeClass e1.classList (chars ("code-input_pre-element-styled")) }
          CodeInput.update e2 e2._value
      else if name = chars ("lang") then
        langCase e oldValue newValue
      else
        if textareaSyncAttributesLiteral.contains name then
          match e.textareaElement with
          | none => .error (.typeError, e)
          | some ta =>
            let ta1 := match newValue with
              | none => removeAttrT ta name
              | some v => setAttrT ta name v
            .ok { e with textareaElement := some ta1 }
        else if matchesAriaWildcard name then
          match e.textareaElement with
          | none => .error (.typeError, e)
          | some ta =>
            let ta1 := match newValue with
              | none => removeAttrT ta name
              | some v => setAttrT ta name v
            .ok { e with textareaElement := some ta1 }
        else .ok e

/-- Embedding of the `CodeInput.addEventListener` override: always builds
`listener.bind(this)` (a fresh bound callback), records it in
`boundEventCallbacks` (overwriting any previous entry for the same
listener), then attaches it to the textarea (deferred via a
"code-input_load" listener when the textarea does not exist yet) for the
rebound event types, and to the element itself otherwise. -/
def CodeInput.addEventListener (e : ElemState) (type : Str) (listener : Nat) : ElemState :=
  let boundId := e.nextBoundId
  let e1 : ElemState :=
    { e with
      boundEventCallbacks := upsertK e.boundEventCallbacks listener boundId,
      nextBoundId := e.nextBoundId + 1 }
  if textareaSyncEvents.contains type then
    match e1.textareaElement with
    | none => { e1 with pendingLoad := e1.pendingLoad ++ [LoadEvt.attachListener type boundId] }
    | some ta =>
      { e1 with textareaElement := some { ta with listeners := attachL ta.listeners type (CB.bound boundId) } }
  else
    { e1 with elemListeners := attachL e1.elemListeners type (CB.bound boundId) }

/-- Embedding of the `CodeInput.removeEventListener` override: only "change" and
"selectionchange" are detached from the textarea via the stored bound
callback; every other type (including "invalid" and "input") falls
through to `super.removeEventListener(type, listener)` with the raw
listener.  `removeEventListener` with an undefined callback is a no-op. -/
def CodeInput.removeEventListener (e : ElemState) (type : Str) (listener : Nat) :
    Except (JsError × ElemState) ElemState :=
  let boundCallback := lookupK e.boundEventCallbacks listener
  if type = chars ("change") then
    match e.textareaElement with
    | none => .error (.typeError, e)
    | some ta =>
      let ls := match boundCallback with
        | none => ta.listeners
        | some b => detachL ta.listeners (chars ("change")) (CB.bound b)
      .ok { e with textareaElement := some { ta with listeners := ls } }
  else if type = chars ("selectionchange") then
    match e.textareaElement with
    | none => .error (.typeError, e)
    | some ta =>
      let ls := match boundCallback with
        | none => ta.listeners
        | some b => detachL ta.listeners (chars ("selectionchange")) (CB.bound b)
      .ok { e with textareaElement := some { ta with listeners := ls } }
  else
    .ok { e with elemListeners := detachL e.elemListeners type (CB.raw listener) }

/-- The state facts that hold of an element once it is Active and no
update is in flight. -/
def ActiveInv (e : ElemState) : Prop :=
  e.textareaElement.isSome = true ∧ e.codeElement.isSome = true ∧
  e.template.isSome = true ∧ e.ignoreValueUpdate = false

/- ------------------------------------------------------------------
   Concrete instances used by witnesses and counterexamples.
   ------------------------------------------------------------------ -/

/-- The empty registry (the library's load-time state). -/
def stEmpty : RegState :=
  { usedTemplates := [], defaultTemplate := none, templateNotYetRegisteredQueue := [] }

/-- A registry with element 0 queued under template name "x". -/
def stQueuedX : RegState :=
  { usedTemplates := [], defaultTemplate := none,
    templateNotYetRegisteredQueue := [(chars ("x"), [0])] }

/-- A well-formed template descriptor. -/
def goodTemplateW : Template :=
  { highlight := TVal.fn 0, preElementStyled := TVal.boolean true,
    isCode := TVal.boolean true, includeCodeInputInHighlightFunc := TVal.boolean false,
    plugins := TVal.arr [] }

/-- A descriptor whose `highlight` is not callable. -/
def badTemplateW : Template :=
  { highlight := TVal.undef, preElementStyled := TVal.boolean true,
    isCode := TVal.boolean true, includeCodeInputInHighlightFunc := TVal.boolean false,
    plugins := TVal.arr [] }

/-- The registry state after registering "x" on `stQueuedX`. -/
def stAfterX : RegState :=
  { usedTemplates := [(chars ("x"), goodTemplateW)], defaultTemplate := some (chars ("x")),
    templateNotYetRegisteredQueue := [(chars ("x"), [0])] }

/-- A resolved template whose highlighter leaves the content unchanged. -/
def idTemplate : ResolvedTemplate :=
  { highlight := fun s => s, preElementStyled := true, isCode := true,
    includeCodeInputInHighlightFunc := false }

/-- A fresh textarea. -/
def taEmpty : TextareaState :=
  { value := [], placeholder := [], innerHTML := [], attrs := [], listeners := [] }

/-- A fresh pre wrapper. -/
def preEmpty : PreState := { classList := [], attrs := [] }

/-- A fresh code node. -/
def codeEmpty : CodeState := { innerHTML := [], classList := [] }

/-- A freshly constructed element (no surfaces, no template). -/
def blankElem : ElemState :=
  { _value := [], textareaElement := none, preElement := none, codeElement := none,
    attrs := [], innerHTML := [], classList := [], template := none, initialValue := [],
    ignoreValueUpdate := false, isConnected := true, pendingLoad := [],
    boundEventCallbacks := [], nextBoundId := 0, elemListeners := [],
    setupQueuedOnWindowLoad := false }

/-- An element whose template is resolved but whose surfaces do not exist
yet. -/
def readyElem : ElemState := { blankElem with template := some idTemplate }

/-- An Active element (surfaces built, identity highlighter). -/
def activeElem : ElemState :=
  { blankElem with
    template := some idTemplate
    textareaElement := some taEmpty
    preElement := some preEmpty
    codeElement := some codeEmpty }

/-- A code node that already carries both `language-js` and `language-py`. -/
def codeLangShort : CodeState :=
  { innerHTML := [], classList := [chars ("language-js"), chars ("language-py")] }

/-- An Active element whose code node already carries `language-py`. -/
def elemLangShort : ElemState := { activeElem with codeElement := some codeLangShort }

/-- A code node carrying only `language-js`. -/
def codeC6w : CodeState := { innerHTML := [], classList := [chars ("language-js")] }

/-- A textarea whose placeholder is "js". -/
def taC6w : TextareaState :=
  { value := [], placeholder := chars ("js"), innerHTML := [], attrs := [], listeners := [] }

/-- An Active element in the state the C6 scenario starts from (lang was
"js", placeholder mirrors it). -/
def elemC6w : ElemState :=
  { blankElem with
    template := some idTemplate
    textareaElement := some taC6w
    preElement := some preEmpty
    codeElement := some codeC6w }

/-- An Active element with two update replays queued from before Active. -/
def elemC8w : ElemState :=
  { activeElem with pendingLoad :=
      [LoadEvt.replayUpdate (chars ("a")), LoadEvt.replayUpdate (chars ("b"))] }

/- ==================================================================
   Theorems.
   ================================================================== -/

theorem replaceGo_skip (p : Char) (ps repl : Str) :
    ∀ (l : Str) (k : Nat), replaceGo p ps repl k l = replaceGo p ps repl 0 (l.drop k) := by
  intro l
  induction l with
  | nil => intro k; simp [replaceGo]
  | cons c rest ih =>
    intro k
    cases k with
    | zero => rfl
    | succ k' =>
      show replaceGo p ps repl k' rest = _
      rw [ih k']
      rfl

@[simp] theorem replaceFrom_nil (p : Char) (ps repl : Str) :
    replaceFrom p ps repl [] = [] := rfl

theorem replaceFrom_cons (p : Char) (ps repl : Str) (c : Char) (rest : Str) :
    replaceFrom p ps repl (c :: rest) =
      if isPrefixOfC (p :: ps) (c :: rest) then
        repl ++ replaceFrom p ps repl (rest.drop ps.length)
      else
        c :: replaceFrom p ps repl rest := by
  show replaceGo p ps repl 0 (c :: rest) = _
  rw [replaceGo]
  rw [replaceGo_skip p ps repl rest ps.length]
  rfl

/-- A scan step over a character that cannot start the pattern passes it
through unchanged. -/
theorem replaceFrom_pass (p : Char) (ps repl : Str) (c : Char) (l : Str)
    (h : (p == c) = false) :
    replaceFrom p ps repl (c :: l) = c :: replaceFrom p ps repl l := by
  rw [replaceFrom_cons]
  have hpre : isPrefixOfC (p :: ps) (c :: l) = false := by
    simp [isPrefixOfC, h]
  rw [if_neg (by simp [hpre])]

theorem escAll_append (f : Char → Str) (l1 l2 : Str) :
    escAll f (l1 ++ l2) = escAll f l1 ++ escAll f l2 := by
  induction l1 with
  | nil => rfl
  | cons c rest ih => simp [escAll, ih]

theorem replaceFrom_single (c : Char) (repl : Str) (l : Str) :
    replaceFrom c [] repl l = escAll (fun x => if x = c then repl else [x]) l := by
  induction l with
  | nil => simp [escAll]
  | cons x rest ih =>
    rw [replaceFrom_cons]
    by_cases hx : x = c
    · subst hx
      simp [isPrefixOfC, escAll, ih]
    · have hb : (c == x) = false := beq_eq_false_iff_ne.mpr (Ne.symm hx)
      simp [isPrefixOfC, hb, escAll, ih, hx]

theorem escAll_lt_amp (l : Str) :
    escAll (fun x => if x = '<' then ['&', 'l', 't', ';'] else [x])
      (escAll (fun x => if x = '&' then ['&', 'a', 'm', 'p', ';'] else [x]) l)
      = escAll escChar l := by
  induction l with
  | nil => rfl
  | cons x rest ih =>
    show escAll _ ((if x = '&' then ['&', 'a', 'm', 'p', ';'] else [x]) ++ _) = _
    rw [escAll_append, ih]
    have hch : escAll (fun x => if x = '<' then ['&', 'l', 't', ';'] else [x])
        (if x = '&' then ['&', 'a', 'm', 'p', ';'] else [x]) = escChar x := by
      by_cases hamp : x = '&'
      · subst hamp; decide
      · by_cases hlt : x = '<'
        · subst hlt; decide
        · simp [escAll, escChar, hamp, hlt]
    rw [hch]
    rfl

/-- The function `escapeHtml` acts character-by-character: `&` becomes `&amp;`, `<`
becomes `&lt;`, and nothing else (in particular `>`) is touched. -/
theorem escapeHtml_eq_escAll (l : Str) : escapeHtml l = escAll escChar l := by
  unfold escapeHtml
  rw [replaceFrom_single '&', replaceFrom_single '<']
  exact escAll_lt_amp l

theorem escapeHtml_append_space (l : Str) :
    escapeHtml (l ++ [' ']) = escapeHtml l ++ [' '] := by
  rw [escapeHtml_eq_escAll, escapeHtml_eq_escAll, escAll_append]
  rfl

/-- Undoing the `&amp;` pass on fully escaped text leaves exactly the `&lt;`
expansions in place. -/
theorem unamp_escAll (l : Str) :
    replaceFrom '&' ['a', 'm', 'p', ';'] ['&'] (escAll escChar l) = escAll escLtChar l := by
  induction l with
  | nil => simp [escAll]
  | cons x rest ih =>
    by_cases hamp : x = '&'
    · subst hamp
      have h1 : escAll escChar ('&' :: rest)
          = '&' :: 'a' :: 'm' :: 'p' :: ';' :: escAll escChar rest := by
        have h2 : escChar '&' = ['&', 'a', 'm', 'p', ';'] := by decide
        show escChar '&' ++ escAll escChar rest = _
        rw [h2]
        rfl
      rw [h1, replaceFrom_cons]
      have hpre : isPrefixOfC ('&' :: ['a', 'm', 'p', ';'])
          ('&' :: 'a' :: 'm' :: 'p' :: ';' :: escAll escChar rest) = true := by
        simp [isPrefixOfC]
      rw [if_pos (by simp [hpre])]
      show ['&'] ++ replaceFrom '&' ['a', 'm', 'p', ';'] ['&']
        (List.drop 4 ('a' :: 'm' :: 'p' :: ';' :: escAll escChar rest)) = _
      have hdrop : List.drop 4 ('a' :: 'm' :: 'p' :: ';' :: escAll escChar rest)
          = escAll escChar rest := by
        simp [List.drop]
      rw [hdrop, ih]
      have h3 : escLtChar '&' = ['&'] := by decide
      show ['&'] ++ escAll escLtChar rest = escLtChar '&' ++ escAll escLtChar rest
      rw [h3]
    · by_cases hlt : x = '<'
      · subst hlt
        have h1 : escAll escChar ('<' :: rest)
            = '&' :: 'l' :: 't' :: ';' :: escAll escChar rest := by
          have h2 : escChar '<' = ['&', 'l', 't', ';'] := by decide
          show escChar '<' ++ escAll escChar rest = _
          rw [h2]
          rfl
        rw [h1, replaceFrom_cons]
        have hpre : isPrefixOfC ('&' :: ['a', 'm', 'p', ';'])
            ('&' :: 'l' :: 't' :: ';' :: escAll escChar rest) = false := by
          have h4 : ('a' == 'l') = false := by decide
          simp [isPrefixOfC, h4]
        rw [if_neg (by simp [hpre])]
        rw [replaceFrom_pass _ _ _ _ _ (by decide)]
        rw [replaceFrom_pass _ _ _ _ _ (by decide)]
        rw [replaceFrom_pass _ _ _ _ _ (by decide)]
        rw [ih]
        have h5 : escLtChar '<' = ['&', 'l', 't', ';'] := by decide
        show '&' :: 'l' :: 't' :: ';' :: escAll escLtChar rest
          = escLtChar '<' ++ escAll escLtChar rest
        rw [h5]
        rfl
      · have hexp : escAll escChar (x :: rest) = x :: escAll escChar rest := by
          have h2 : escChar x = [x] := by simp [escChar, hamp, hlt]
          show escChar x ++ escAll escChar rest = _
          rw [h2]
          rfl
        rw [hexp, replaceFrom_pass _ _ _ _ _ (beq_eq_false_iff_ne.mpr (Ne.symm hamp))]
        rw [ih]
        have h3 : escLtChar x = [x] := by simp [escLtChar, hlt]
        show x :: escAll escLtChar rest = escLtChar x ++ escAll escLtChar rest
        rw [h3]
        rfl

/-- A pattern made of characters other than `&` and `<` starts the
`escLtChar` expansion of `t` exactly when it starts `t` itself. -/
theorem isPrefixOfC_escAll_escLtChar (pat : Str)
    (hpat : ∀ c ∈ pat, c ≠ '&' ∧ c ≠ '<') (t : Str) :
    isPrefixOfC pat (escAll escLtChar t) = isPrefixOfC pat t := by
  induction pat generalizing t with
  | nil => simp [isPrefixOfC]
  | cons a as ih =>
    cases t with
    | nil => simp [escAll]
    | cons y t' =>
      by_cases hy : y = '<'
      · subst hy
        have hexp : escAll escLtChar ('<' :: t')
            = '&' :: 'l' :: 't' :: ';' :: escAll escLtChar t' := by
          have h2 : escLtChar '<' = ['&', 'l', 't', ';'] := by decide
          show escLtChar '<' ++ escAll escLtChar t' = _
          rw [h2]
          rfl
        rw [hexp]
        have ha1 : (a == '&') = false :=
          beq_eq_false_iff_ne.mpr (hpat a (by simp)).1
        have ha2 : (a == '<') = false :=
          beq_eq_false_iff_ne.mpr (hpat a (by simp)).2
        simp [isPrefixOfC, ha1, ha2]
      · have hexp : escAll escLtChar (y :: t') = y :: escAll escLtChar t' := by
          have h2 : escLtChar y = [y] := by simp [escLtChar, hy]
          show escLtChar y ++ escAll escLtChar t' = _
          rw [h2]
          rfl
        rw [hexp]
        show (a == y && isPrefixOfC as (escAll escLtChar t'))
          = (a == y && isPrefixOfC as t')
        rw [ih (fun c hc => hpat c (by simp [hc]))]

/-- Undoing the `&lt;` pass recovers the original text, provided the text
contains no literal `&lt;` entity. -/
theorem unlt_escAll (l : Str) (h : hasSubstr ['&', 'l', 't', ';'] l = false) :
    replaceFrom '&' ['l', 't', ';'] ['<'] (escAll escLtChar l) = l := by
  induction l with
  | nil => simp [escAll]
  | cons x rest ih =>
    have hsub : hasSubstr ['&', 'l', 't', ';'] rest = false := by
      rw [hasSubstr] at h
      exact (Bool.or_eq_false_iff.mp h).2
    have hnop : isPrefixOfC ['&', 'l', 't', ';'] (x :: rest) = false := by
      rw [hasSubstr] at h
      exact (Bool.or_eq_false_iff.mp h).1
    by_cases hx : x = '<'
    · subst hx
      have hexp : escAll escLtChar ('<' :: rest)
          = '&' :: 'l' :: 't' :: ';' :: escAll escLtChar rest := by
        have h2 : escLtChar '<' = ['&', 'l', 't', ';'] := by decide
        show escLtChar '<' ++ escAll escLtChar rest = _
        rw [h2]
        rfl
      rw [hexp, replaceFrom_cons]
      have hpre : isPrefixOfC ('&' :: ['l', 't', ';'])
          ('&' :: 'l' :: 't' :: ';' :: escAll escLtChar rest) = true := by
        simp [isPrefixOfC]
      rw [if_pos (by simp [hpre])]
      show ['<'] ++ replaceFrom '&' ['l', 't', ';'] ['<']
        (List.drop 3 ('l' :: 't' :: ';' :: escAll escLtChar rest)) = _
      have hdrop : List.drop 3 ('l' :: 't' :: ';' :: escAll escLtChar rest)
          = escAll escLtChar rest := by
        simp [List.drop]
      rw [hdrop, ih hsub]
      rfl
    · have hexp : escAll escLtChar (x :: rest) = x :: escAll escLtChar rest := by
        have h2 : escLtChar x = [x] := by simp [escLtChar, hx]
        show escLtChar x ++ escAll escLtChar rest = _
        rw [h2]
        rfl
      rw [hexp]
      by_cases hamp : x = '&'
      · subst hamp
        rw [replaceFrom_cons]
        have hpre : isPrefixOfC ('&' :: ['l', 't', ';'])
            ('&' :: escAll escLtChar rest) = false := by
          show (('&' == '&') && isPrefixOfC ['l', 't', ';'] (escAll escLtChar rest)) = false
          rw [isPrefixOfC_escAll_escLtChar ['l', 't', ';'] (by decide) rest]
          have h6 : isPrefixOfC ['l', 't', ';'] rest = false := by
            cases hval : isPrefixOfC ['l', 't', ';'] rest
            · rfl
            · exfalso
              have h7 : isPrefixOfC ['&', 'l', 't', ';'] ('&' :: rest) = true := by
                simp [isPrefixOfC, hval]
              rw [h7] at hnop
              exact absurd hnop (by simp)
          simp [h6]
        rw [if_neg (by simp [hpre])]
        rw [ih hsub]
      · rw [replaceFrom_pass _ _ _ _ _ (beq_eq_false_iff_ne.mpr (Ne.symm hamp))]
        rw [ih hsub]

/-- A global replace of a pattern that does not occur is the identity. -/
theorem replaceFrom_id (p : Char) (ps repl l : Str)
    (h : hasSubstr (p :: ps) l = false) :
    replaceFrom p ps repl l = l := by
  induction l with
  | nil => simp
  | cons c t ih =>
    rw [hasSubstr] at h
    obtain ⟨h1, h2⟩ := Bool.or_eq_false_iff.mp h
    rw [replaceFrom_cons, if_neg (by simp [h1]), ih h2]

/-- C2: for every string whose `&`, `<`, `>` characters are all literal —
no pre-existing `&amp;`, `&lt;` or `&gt;` entity occurs as a substring —
`unescapeHtml` inverts `escapeHtml`; `escapeHtml` rewrites only `&` to
`&amp;` and `<` to `&lt;` (never touching `>`), and `unescapeHtml`
additionally maps `&gt;` to `>`. -/
theorem escapeHtml_unescapeHtml_roundtrip (T : Str)
    (hamp : hasSubstr (chars ("&amp;")) T = false)
    (hlt : hasSubstr (chars ("&lt;")) T = false)
    (hgt : hasSubstr (chars ("&gt;")) T = false) :
    unescapeHtml (escapeHtml T) = T ∧
    escapeHtml T = escAll escChar T ∧
    unescapeHtml (chars ("&gt;")) = chars (">") := by
  refine ⟨?_, escapeHtml_eq_escAll T, by decide⟩
  unfold unescapeHtml
  rw [escapeHtml_eq_escAll, unamp_escAll]
  rw [unlt_escAll T (by exact hlt)]
  exact replaceFrom_id '&' ['g', 't', ';'] ['>'] T hgt

/-- Witness for C2 at a concrete string containing `&`, `<` and `>`. -/
theorem escapeHtml_unescapeHtml_roundtrip_witness :
    unescapeHtml (escapeHtml (chars ("a<b>&c"))) = chars ("a<b>&c") ∧
    escapeHtml (chars ("a<b>&c")) = escAll escChar (chars ("a<b>&c")) ∧
    unescapeHtml (chars ("&gt;")) = chars (">") :=
  escapeHtml_unescapeHtml_roundtrip (chars ("a<b>&c")) (by decide) (by decide) (by decide)

/- ------------------------------------------------------------------
   Registry theorems (C3, C4).
   ------------------------------------------------------------------ -/

theorem checkPlugins_eq_none (l : List TVal) :
    checkPlugins l = none ↔ ∀ p ∈ l, isPlugin p = true := by
  induction l with
  | nil => simp [checkPlugins]
  | cons p rest ih =>
    cases hp : isPlugin p
    · simp [checkPlugins, hp]
    · simp [checkPlugins, hp, ih]

theorem checkPlugins_eq_some (l : List TVal) (i : Nat) (h : checkPlugins l = some i) :
    ∃ p, l.get? i = some p ∧ isPlugin p = false := by
  induction l generalizing i with
  | nil => simp [checkPlugins] at h
  | cons p rest ih =>
    cases hp : isPlugin p
    · simp [checkPlugins, hp] at h
      subst h
      exact ⟨p, rfl, hp⟩
    · simp [checkPlugins, hp, Option.map_eq_some'] at h
      obtain ⟨j, hj, hji⟩ := h
      obtain ⟨q, hq1, hq2⟩ := ih j hj
      refine ⟨q, ?_, hq2⟩
      rw [← hji]
      simpa using hq1

/-- An error leaf of the registration validation: given the computed
result and the fact the reported field is indeed bad, both claim parts
follow. -/
theorem registerTemplate_error_leaf (err0 : RegErr) {st : RegState} {templateName : Str}
    {template : Template}
    (hres : codeInput.registerTemplate st templateName template = .error (err0, st))
    (hfield : regErrIdentifiesField err0 template)
    (hmal : malformedTemplate template) :
    (∀ err st', codeInput.registerTemplate st templateName template = .error (err, st') →
      st' = st ∧ regErrIdentifiesField err template) ∧
    (exceptIsOk (codeInput.registerTemplate st templateName template) = true ↔
      ¬ malformedTemplate template) := by
  constructor
  · intro err st' heq
    rw [hres] at heq
    have h := Except.error.inj heq
    have he : err0 = err := congrArg Prod.fst h
    have hs : st = st' := congrArg Prod.snd h
    exact ⟨hs.symm, he ▸ hfield⟩
  · rw [hres]
    constructor
    · intro hcon
      exact absurd hcon (by simp [exceptIsOk])
    · intro hnm
      exact (hnm hmal).elim

/-- C3: `registerTemplate` raises an error exactly when the descriptor is
malformed (highlight not callable, a flag not boolean, plugins not an
array, or a plugin entry not a Plugin instance); the error names the
offending field, and on every failure the registry state — mapping,
default template and pending queue — is exactly the input state. -/
theorem registerTemplate_validation (st : RegState) (templateName : Str)
    (template : Template) :
    (∀ err st', codeInput.registerTemplate st templateName template = .error (err, st') →
      st' = st ∧ regErrIdentifiesField err template) ∧
    (exceptIsOk (codeInput.registerTemplate st templateName template) = true ↔
      ¬ malformedTemplate template) := by
  by_cases h1 : isFun template.highlight = false
  · exact registerTemplate_error_leaf RegErr.badHighlight
      (by simp [codeInput.registerTemplate, h1]) h1 (Or.inl h1)
  · by_cases h2 : isBool template.includeCodeInputInHighlightFunc = false
    · exact registerTemplate_error_leaf RegErr.badIncludeCodeInput
        (by simp [codeInput.registerTemplate, h1, h2]) h2 (Or.inr (Or.inl h2))
    · by_cases h3 : isBool template.preElementStyled = false
      · exact registerTemplate_error_leaf RegErr.badPreElementStyled
          (by simp [codeInput.registerTemplate, h1, h2, h3]) h3 (Or.inr (Or.inr (Or.inl h3)))
      · by_cases h4 : isBool template.isCode = false
        · exact registerTemplate_error_leaf RegErr.badIsCode
            (by simp [codeInput.registerTemplate, h1, h2, h3, h4]) h4
            (Or.inr (Or.inr (Or.inr (Or.inl h4))))
        · cases hpl : template.plugins with
          | fn id =>
            refine registerTemplate_error_leaf RegErr.badPluginsNotArray
              (by simp [codeInput.registerTemplate, h1, h2, h3, h4, hpl]) ?_ ?_
            · exact fun l hcon => by rw [hpl] at hcon; exact TVal.noConfusion hcon
            · exact Or.inr (Or.inr (Or.inr (Or.inr (Or.inl
                (fun l hcon => by rw [hpl] at hcon; exact TVal.noConfusion hcon)))))
          | boolean b =>
            refine registerTemplate_error_leaf RegErr.badPluginsNotArray
              (by simp [codeInput.registerTemplate, h1, h2, h3, h4, hpl]) ?_ ?_
            · exact fun l hcon => by rw [hpl] at hcon; exact TVal.noConfusion hcon
            · exact Or.inr (Or.inr (Or.inr (Or.inr (Or.inl
                (fun l hcon => by rw [hpl] at hcon; exact TVal.noConfusion hcon)))))
          | pluginInst id =>
            refine registerTemplate_error_leaf RegErr.badPluginsNotArray
              (by simp [codeInput.registerTemplate, h1, h2, h3, h4, hpl]) ?_ ?_
            · exact fun l hcon => by rw [hpl] at hcon; exact TVal.noConfusion hcon
            · exact Or.inr (Or.inr (Or.inr (Or.inr (Or.inl
                (fun l hcon => by rw [hpl] at hcon; exact TVal.noConfusion hcon)))))
          | strV s =>
            refine registerTemplate_error_leaf RegErr.badPluginsNotArray
              (by simp [codeInput.registerTemplate, h1, h2, h3, h4, hpl]) ?_ ?_
            · exact fun l hcon => by rw [hpl] at hcon; exact TVal.noConfusion hcon
            · exact Or.inr (Or.inr (Or.inr (Or.inr (Or.inl
                (fun l hcon => by rw [hpl] at hcon; exact TVal.noConfusion hcon)))))
          | undef =>
            refine registerTemplate_error_leaf RegErr.badPluginsNotArray
              (by simp [codeInput.registerTemplate, h1, h2, h3, h4, hpl]) ?_ ?_
            · exact fun l hcon => by rw [hpl] at hcon; exact TVal.noConfusion hcon
            · exact Or.inr (Or.inr (Or.inr (Or.inr (Or.inl
                (fun l hcon => by rw [hpl] at hcon; exact TVal.noConfusion hcon)))))
          | arr pluginList =>
            cases hcp : checkPlugins pluginList with
            | some i =>
              obtain ⟨p, hp1, hp2⟩ := checkPlugins_eq_some pluginList i hcp
              refine registerTemplate_error_leaf (RegErr.badPluginEntry i)
                (by simp [codeInput.registerTemplate, h1, h2, h3, h4, hpl, hcp]) ?_ ?_
              · exact ⟨pluginList, p, hpl, hp1, hp2⟩
              · exact Or.inr (Or.inr (Or.inr (Or.inr (Or.inr
                  ⟨pluginList, i, p, hpl, hp1, hp2⟩))))
            | none =>
              have hnm : ¬ malformedTemplate template := by
                unfold malformedTemplate
                rintro (hm | hm | hm | hm | hm | hm)
                · exact h1 hm
                · exact h2 hm
                · exact h3 hm
                · exact h4 hm
                · exact hm pluginList hpl
                · obtain ⟨l, i, p, hl, hget, hbad⟩ := hm
                  rw [hpl] at hl
                  have hle : pluginList = l := TVal.arr.inj hl
                  subst hle
                  have hmem : p ∈ pluginList := by
                    have := List.get?_eq_some.mp hget
                    obtain ⟨hi, hp⟩ := this
                    exact hp ▸ List.get_mem pluginList i hi
                  have hgood := (checkPlugins_eq_none pluginList).mp hcp p hmem
                  rw [hgood] at hbad
                  exact absurd hbad (by simp)
              by_cases hd : st.defaultTemplate.isNone = true
              · have hres : codeInput.registerTemplate st templateName template =
                    .ok ({ usedTemplates := upsertK st.usedTemplates templateName template,
                           defaultTemplate := some templateName,
                           templateNotYetRegisteredQueue := st.templateNotYetRegisteredQueue },
                      (lookupK st.templateNotYetRegisteredQueue templateName).getD [] ++
                      (lookupK st.templateNotYetRegisteredQueue (chars ("undefined"))).getD []) := by
                  simp [codeInput.registerTemplate, h1, h2, h3, h4, hpl, hcp, hd]
                constructor
                · intro err st' heq
                  rw [hres] at heq
                  exact Except.noConfusion heq
                · rw [hres]
                  simp [exceptIsOk, hnm]
              · have hres : codeInput.registerTemplate st templateName template =
                    .ok ({ usedTemplates := upsertK st.usedTemplates templateName template,
                           defaultTemplate := st.defaultTemplate,
                           templateNotYetRegisteredQueue := st.templateNotYetRegisteredQueue },
                      (lookupK st.templateNotYetRegisteredQueue templateName).getD []) := by
                  simp [codeInput.registerTemplate, h1, h2, h3, h4, hpl, hcp, hd]
                constructor
                · intro err st' heq
                  rw [hres] at heq
                  exact Except.noConfusion heq
                · rw [hres]
                  simp [exceptIsOk, hnm]

/-- Witness for C3: registering a descriptor with a non-callable highlight
fails naming that field and leaves the registry unchanged. -/
theorem registerTemplate_validation_witness :
    (stEmpty = stEmpty ∧ regErrIdentifiesField RegErr.badHighlight badTemplateW) ∧
    (exceptIsOk (codeInput.registerTemplate stEmpty (chars ("x")) badTemplateW) = true ↔
      ¬ malformedTemplate badTemplateW) :=
  ⟨(registerTemplate_validation stEmpty (chars ("x")) badTemplateW).1
      RegErr.badHighlight stEmpty rfl,
   (registerTemplate_validation stEmpty (chars ("x")) badTemplateW).2⟩

/-- C4 is false on the code: registering "x" while element 0 is queued
under "x" leaves the queue entry in place (it is never deleted), and a
second registration of "x" schedules element 0's connectedCallback — and
hence a setup attempt — again. -/
theorem registerTemplate_requeues_cex :
    (codeInput.registerTemplate stQueuedX (chars ("x")) goodTemplateW).map
        (fun r => (lookupK r.1.templateNotYetRegisteredQueue (chars ("x")), r.2))
      = .ok (some [0], [0]) ∧
    ((codeInput.registerTemplate stQueuedX (chars ("x")) goodTemplateW).bind
        (fun r => codeInput.registerTemplate r.1 (chars ("x")) goodTemplateW)).map
        (fun r => r.2)
      = .ok [0] :=
  ⟨rfl, rfl⟩

/-- C4 amended: a successful registration schedules exactly the elements
queued under the registered name (plus, when this registration sets the
default, those queued under the `undefined` sentinel), but the pending
queue itself is left entirely unchanged — no entry is ever removed, so a
re-registration re-schedules the same elements (their setup attempts are
then no-ops by the guard proved for C5). -/
theorem registerTemplate_flush_behavior (st : RegState) (templateName : Str)
    (template : Template) (st' : RegState) (flushed : List Nat)
    (h : codeInput.registerTemplate st templateName template = .ok (st', flushed)) :
    st'.templateNotYetRegisteredQueue = st.templateNotYetRegisteredQueue ∧
    flushed = (lookupK st.templateNotYetRegisteredQueue templateName).getD [] ++
      (if st.defaultTemplate.isNone then
        (lookupK st.templateNotYetRegisteredQueue (chars ("undefined"))).getD []
      else []) := by
  by_cases h1 : isFun template.highlight = false
  · rw [show codeInput.registerTemplate st templateName template = .error (.badHighlight, st)
      from by simp [codeInput.registerTemplate, h1]] at h
    exact Except.noConfusion h
  · by_cases h2 : isBool template.includeCodeInputInHighlightFunc = false
    · rw [show codeInput.registerTemplate st templateName template =
          .error (.badIncludeCodeInput, st)
        from by simp [codeInput.registerTemplate, h1, h2]] at h
      exact Except.noConfusion h
    · by_cases h3 : isBool template.preElementStyled = false
      · rw [show codeInput.registerTemplate st templateName template =
            .error (.badPreElementStyled, st)
          from by simp [codeInput.registerTemplate, h1, h2, h3]] at h
        exact Except.noConfusion h
      · by_cases h4 : isBool template.isCode = false
        · rw [show codeInput.registerTemplate st templateName template = .error (.badIsCode, st)
            from by simp [codeInput.registerTemplate, h1, h2, h3, h4]] at h
          exact Except.noConfusion h
        · cases hpl : template.plugins with
          | fn id =>
            rw [show codeInput.registerTemplate st templateName template =
                .error (.badPluginsNotArray, st)
              from by simp [codeInput.registerTemplate, h1, h2, h3, h4, hpl]] at h
            exact Except.noConfusion h
          | boolean b =>
            rw [show codeInput.registerTemplate st templateName template =
                .error (.badPluginsNotArray, st)
              from by simp [codeInput.registerTemplate, h1, h2, h3, h4, hpl]] at h
            exact Except.noConfusion h
          | pluginInst id =>
            rw [show codeInput.registerTemplate st templateName template =
                .error (.badPluginsNotArray, st)
              from by simp [codeInput.registerTemplate, h1, h2, h3, h4, hpl]] at h
            exact Except.noConfusion h
          | strV s =>
            rw [show codeInput.registerTemplate st templateName template =
                .error (.badPluginsNotArray, st)
              from by simp [codeInput.registerTemplate, h1, h2, h3, h4, hpl]] at h
            exact Except.noConfusion h
          | undef =>
            rw [show codeInput.registerTemplate st templateName template =
                .error (.badPluginsNotArray, st)
              from by simp [codeInput.registerTemplate, h1, h2, h3, h4, hpl]] at h
            exact Except.noConfusion h
          | arr pluginList =>
            cases hcp : checkPlugins pluginList with
            | some i =>
              rw [show codeInput.registerTemplate st templateName template =
                  .error (.badPluginEntry i, st)
                from by simp [codeInput.registerTemplate, h1, h2, h3, h4, hpl, hcp]] at h
              exact Except.noConfusion h
            | none =>
              by_cases hd : st.defaultTemplate.isNone = true
              · rw [show codeInput.registerTemplate st templateName template =
                    .ok ({ usedTemplates := upsertK st.usedTemplates templateName template,
                           defaultTemplate := some templateName,
                           templateNotYetRegisteredQueue := st.templateNotYetRegisteredQueue },
                      (lookupK st.templateNotYetRegisteredQueue templateName).getD [] ++
                      (lookupK st.templateNotYetRegisteredQueue (chars ("undefined"))).getD [])
                  from by simp [codeInput.registerTemplate, h1, h2, h3, h4, hpl, hcp, hd]] at h
                have hp := Except.ok.inj h
                simp only [Prod.mk.injEq] at hp
                obtain ⟨hst, hfl⟩ := hp
                subst hst
                subst hfl
                simp [hd]
              · rw [show codeInput.registerTemplate st templateName template =
                    .ok ({ usedTemplates := upsertK st.usedTemplates templateName template,
                           defaultTemplate := st.defaultTemplate,
                           templateNotYetRegisteredQueue := st.templateNotYetRegisteredQueue },
                      (lookupK st.templateNotYetRegisteredQueue templateName).getD [])
                  from by simp [codeInput.registerTemplate, h1, h2, h3, h4, hpl, hcp, hd]] at h
                have hp := Except.ok.inj h
                simp only [Prod.mk.injEq] at hp
                obtain ⟨hst, hfl⟩ := hp
                subst hst
                subst hfl
                simp [hd]

/-- Witness for the amended C4 at the concrete queued registry. -/
theorem registerTemplate_flush_behavior_witness :
    stAfterX.templateNotYetRegisteredQueue = stQueuedX.templateNotYetRegisteredQueue ∧
    [0] = (lookupK stQueuedX.templateNotYetRegisteredQueue (chars ("x"))).getD [] ++
      (if stQueuedX.defaultTemplate.isNone then
        (lookupK stQueuedX.templateNotYetRegisteredQueue (chars ("undefined"))).getD []
      else []) :=
  registerTemplate_flush_behavior stQueuedX (chars ("x")) goodTemplateW stAfterX [0] rfl

/- ------------------------------------------------------------------
   Element helper lemmas.
   ------------------------------------------------------------------ -/

/-- The exact result of `update` on an Active element. -/
theorem update_eq_of_active (e : ElemState) (ta : TextareaState) (code : CodeState)
    (tpl : ResolvedTemplate) (v : Str)
    (hig : e.ignoreValueUpdate = false) (hta : e.textareaElement = some ta)
    (hcode : e.codeElement = some code) (htpl : e.template = some tpl) :
    CodeInput.update e v = .ok
      { e with
        _value := v
        textareaElement := some (if ta.value = v then ta else { ta with value := v })
        codeElement := some { code with innerHTML := tpl.highlight (escapeHtml (if lastIsNewline v then v ++ [' '] else v)) } } := by
  simp only [CodeInput.update, hig, hta, hcode, htpl]
  rfl

/-- Running `update` on an element with all surfaces present succeeds and keeps
them present (whatever the re-entrancy flag says). -/
theorem update_ok_of_active (e : ElemState) (v : Str)
    (hta : e.textareaElement.isSome = true) (hcode : e.codeElement.isSome = true)
    (htpl : e.template.isSome = true) :
    ∃ e', CodeInput.update e v = .ok e' ∧
      e'.textareaElement.isSome = true ∧ e'.codeElement.isSome = true ∧
      e'.preElement = e.preElement ∧ e'.template = e.template ∧
      e'.ignoreValueUpdate = e.ignoreValueUpdate ∧ e'.pendingLoad = e.pendingLoad := by
  by_cases hig : e.ignoreValueUpdate = true
  · exact ⟨e, by simp [CodeInput.update, hig], hta, hcode, rfl, rfl, rfl, rfl⟩
  · have hig' : e.ignoreValueUpdate = false := by
      cases hval : e.ignoreValueUpdate
      · rfl
      · exact absurd hval hig
    obtain ⟨ta, hta'⟩ := Option.isSome_iff_exists.mp hta
    obtain ⟨code, hcode'⟩ := Option.isSome_iff_exists.mp hcode
    obtain ⟨tpl, htpl'⟩ := Option.isSome_iff_exists.mp htpl
    rw [update_eq_of_active e ta code tpl v hig' hta' hcode' htpl']
    exact ⟨_, rfl, rfl, rfl, rfl, rfl, rfl, rfl⟩

/-- The setup guard: a second `setup` invocation is the identity. -/
theorem setup_already_setup (e : ElemState) (h : e.textareaElement.isSome = true) :
    CodeInput.setup e = .ok e := by
  unfold CodeInput.setup
  rw [if_pos (by simp [h])]

/-- One load-dispatch step keeps the surfaces present. -/
theorem loadStep_preserves_some (acc : ElemState) (evt : LoadEvt)
    (h1 : acc.textareaElement.isSome = true) (h2 : acc.codeElement.isSome = true)
    (h3 : acc.template.isSome = true) :
    (loadStep acc evt).textareaElement.isSome = true ∧
    (loadStep acc evt).codeElement.isSome = true ∧
    (loadStep acc evt).template.isSome = true ∧
    (loadStep acc evt).preElement = acc.preElement := by
  cases evt with
  | replayUpdate v =>
    obtain ⟨e', he, p1, p2, p3, p4, _, _⟩ := update_ok_of_active acc v h1 h2 h3
    simp only [loadStep, runLoadEvt]
    rw [he]
    exact ⟨p1, p2, by rw [p4]; exact h3, p3⟩
  | attachListener t b =>
    obtain ⟨ta, hta⟩ := Option.isSome_iff_exists.mp h1
    simp only [loadStep, runLoadEvt]
    rw [hta]
    exact ⟨rfl, h2, h3, rfl⟩

/-- The whole load dispatch keeps the surfaces present. -/
theorem foldl_loadStep_preserves_some (evts : List LoadEvt) (acc : ElemState)
    (h1 : acc.textareaElement.isSome = true) (h2 : acc.codeElement.isSome = true)
    (h3 : acc.template.isSome = true) :
    (List.foldl loadStep acc evts).textareaElement.isSome = true ∧
    (List.foldl loadStep acc evts).codeElement.isSome = true ∧
    (List.foldl loadStep acc evts).template.isSome = true ∧
    (List.foldl loadStep acc evts).preElement = acc.preElement := by
  induction evts generalizing acc with
  | nil => exact ⟨h1, h2, h3, rfl⟩
  | cons evt rest ih =>
    obtain ⟨q1, q2, q3, q4⟩ := loadStep_preserves_some acc evt h1 h2 h3
    obtain ⟨r1, r2, r3, r4⟩ := ih (loadStep acc evt) q1 q2 q3
    exact ⟨r1, r2, r3, by rw [List.foldl_cons] at *; rw [r4, q4]⟩

/-- One load-dispatch step preserves the Active-state facts. -/
theorem loadStep_activeInv (acc : ElemState) (evt : LoadEvt) (h : ActiveInv acc) :
    ActiveInv (loadStep acc evt) := by
  obtain ⟨h1, h2, h3, h4⟩ := h
  cases evt with
  | replayUpdate v =>
    obtain ⟨e', he, p1, p2, _, p4, p5, _⟩ := update_ok_of_active acc v h1 h2 h3
    simp only [loadStep, runLoadEvt]
    rw [he]
    exact ⟨p1, p2, by rw [p4]; exact h3, by rw [p5]; exact h4⟩
  | attachListener t b =>
    obtain ⟨ta, hta⟩ := Option.isSome_iff_exists.mp h1
    simp only [loadStep, runLoadEvt]
    rw [hta]
    exact ⟨rfl, h2, h3, h4⟩

/-- The whole load dispatch preserves the Active-state facts. -/
theorem foldl_loadStep_activeInv (evts : List LoadEvt) (acc : ElemState)
    (h : ActiveInv acc) : ActiveInv (List.foldl loadStep acc evts) := by
  induction evts generalizing acc with
  | nil => exact h
  | cons evt rest ih => exact ih (loadStep acc evt) (loadStep_activeInv acc evt h)

/- ------------------------------------------------------------------
   C1: update on an Active element.
   ------------------------------------------------------------------ -/

/-- C1: after `update T` on an Active element the authoritative value and
the textarea value equal `T` exactly, and the display content is the
highlighter applied to `escapeHtml T` with one trailing space appended
exactly when `T` ends in a newline — the trailing space never reaches the
value or the textarea. -/
theorem update_active_render (e : ElemState) (ta : TextareaState) (code : CodeState)
    (tpl : ResolvedTemplate) (T : Str)
    (hig : e.ignoreValueUpdate = false) (hta : e.textareaElement = some ta)
    (hcode : e.codeElement = some code) (htpl : e.template = some tpl) :
    ∃ ta' code', CodeInput.update e T = .ok
        { e with
          _value := T
          textareaElement := some ta'
          codeElement := some code' } ∧
      ta'.value = T ∧
      code'.innerHTML =
        tpl.highlight (escapeHtml T ++ (if lastIsNewline T then [' '] else [])) := by
  refine ⟨(if ta.value = T then ta else { ta with value := T }),
    { code with innerHTML :=
        tpl.highlight (escapeHtml (if lastIsNewline T then T ++ [' '] else T)) },
    update_eq_of_active e ta code tpl T hig hta hcode htpl, ?_, ?_⟩
  · by_cases hv : ta.value = T
    · simp [hv]
    · simp [hv]
  · by_cases hnl : lastIsNewline T = true
    · simp [hnl, escapeHtml_append_space]
    · simp [hnl]

/-- Witness for C1 on a concrete Active element. -/
theorem update_active_render_witness :
    ∃ ta' code', CodeInput.update activeElem (chars ("a")) = .ok
        { activeElem with
          _value := chars ("a")
          textareaElement := some ta'
          codeElement := some code' } ∧
      ta'.value = chars ("a") ∧
      code'.innerHTML =
        idTemplate.highlight
          (escapeHtml (chars ("a")) ++ (if lastIsNewline (chars ("a")) then [' '] else [])) :=
  update_active_render activeElem taEmpty codeEmpty idTemplate (chars ("a")) rfl rfl rfl rfl

/- ------------------------------------------------------------------
   C5: surfaces are created at most once.
   ------------------------------------------------------------------ -/

/-- The tail of a fresh `setup` run: the first render followed by the
load dispatch keeps every surface present, and a repeated `setup` on the
result is the identity. -/
theorem setup_tail (E : ElemState) (value : Str)
    (h1 : E.textareaElement.isSome = true) (h2 : E.codeElement.isSome = true)
    (h3 : E.template.isSome = true) (h4 : E.preElement.isSome = true) :
    ∃ e', (match CodeInput.update E value with
           | .error err => Except.error err
           | .ok e6 => Except.ok (dispatchLoad e6)) = .ok e' ∧
      e'.textareaElement.isSome = true ∧ e'.preElement.isSome = true ∧
      e'.codeElement.isSome = true ∧ CodeInput.setup e' = .ok e' := by
  obtain ⟨e6, he6, q1, q2, q3, q4, _, _⟩ := update_ok_of_active E value h1 h2 h3
  rw [he6]
  obtain ⟨r1, r2, r3, r4⟩ :=
    foldl_loadStep_preserves_some e6.pendingLoad e6 q1 q2 (by rw [q4]; exact h3)
  refine ⟨dispatchLoad e6, rfl, r1, ?_, r2, setup_already_setup _ r1⟩
  show (List.foldl loadStep e6 e6.pendingLoad).preElement.isSome = true
  rw [r4, q3]
  exact h4

/-- C5: `setup` returns immediately once the textarea exists, so the
editable surface and display nodes are created at most once: a repeated
`connectedCallback` (re-attachment or repeated queue flush) leaves the
existing surfaces untouched, and a first `setup` creates all three
surfaces after which `setup` is the identity. -/
theorem surfaces_created_once :
    (∀ e : ElemState, e.textareaElement.isSome = true → CodeInput.setup e = .ok e) ∧
    (∀ (e : ElemState) (tpl : ResolvedTemplate), e.textareaElement.isSome = true →
      ∃ e', CodeInput.connectedCallback (some tpl) true e = .ok e' ∧
        e'.textareaElement = e.textareaElement ∧ e'.preElement = e.preElement ∧
        e'.codeElement = e.codeElement) ∧
    (∀ (e : ElemState) (tpl : ResolvedTemplate),
      e.textareaElement = none → e.template = some tpl →
      ∃ e', CodeInput.setup e = .ok e' ∧ e'.textareaElement.isSome = true ∧
        e'.preElement.isSome = true ∧ e'.codeElement.isSome = true ∧
        CodeInput.setup e' = .ok e') := by
  refine ⟨setup_already_setup, ?_, ?_⟩
  · intro e tpl h
    have hs := setup_already_setup
      { e with
        template := some tpl
        classList := addClass e.classList (chars ("code-input_registered")) } h
    refine ⟨{ e with
      template := some tpl
      classList := addClass (addClass e.classList (chars ("code-input_registered")))
        (chars ("code-input_loaded")) }, ?_, rfl, rfl, rfl⟩
    unfold CodeInput.connectedCallback
    simp only [hs]
    simp
  · intro e tpl hta htpl
    unfold CodeInput.setup
    rw [if_neg (by simp [hta])]
    simp only [htpl]
    by_cases hps : tpl.preElementStyled = true
    · simp only [hps, if_true]
      apply setup_tail
      · rfl
      · rfl
      · simp [htpl]
      · rfl
    · simp only [hps, if_false]
      apply setup_tail
      · rfl
      · rfl
      · simp [htpl]
      · rfl

/-- Witness for C5: the guard on an Active element, and a fresh setup on a
template-resolved element. -/
theorem surfaces_created_once_witness :
    CodeInput.setup activeElem = .ok activeElem ∧
    (∃ e', CodeInput.setup readyElem = .ok e' ∧ e'.textareaElement.isSome = true ∧
      e'.preElement.isSome = true ∧ e'.codeElement.isSome = true ∧
      CodeInput.setup e' = .ok e') :=
  ⟨surfaces_created_once.1 activeElem rfl,
   surfaces_created_once.2.2 readyElem idTemplate rfl rfl⟩

/- ------------------------------------------------------------------
   C6 and C7: the lang attribute reaction.
   ------------------------------------------------------------------ -/

/-- C6 is false as universally stated: when the code node already carries
`language-<lower new>` the handler short-circuits — here lang changes
from "js" to "py" on a node already carrying `language-py`, and
`language-js` is not removed (nothing happens at all, no re-render). -/
theorem lang_attribute_shortcircuit_cex :
    CodeInput.attributeChangedCallback (fun _ => none) none elemLangShort (chars ("lang"))
        (some (chars ("js"))) (some (chars ("py"))) = .ok elemLangShort ∧
    chars ("language-js") ∈ codeLangShort.classList :=
  ⟨rfl, by decide⟩

/-- C6 amended: on a lang change from O to N while Active, provided the
code node does not already carry `language-<lower N>` (otherwise the
handler does nothing): `language-<lower O>` and `language-none` are
removed from both display nodes, `language-<lower N>` is added to the
code node only (whenever N is non-empty — the template's code-likeness is
not consulted), the textarea placeholder becomes lower N if it equalled
lower O, and update re-runs on the authoritative value. -/
theorem lang_attribute_reaction (usedT : Str → Option ResolvedTemplate)
    (defT : Option Str) (e : ElemState) (ta : TextareaState) (pre : PreState)
    (code : CodeState) (tpl : ResolvedTemplate) (O N : Str)
    (hconn : e.isConnected = true) (htpl : e.template = some tpl)
    (hta : e.textareaElement = some ta) (hpre : e.preElement = some pre)
    (hcode : e.codeElement = some code)
    (hshort : (chars ("language-") ++ jsToLower N) ∉ code.classList) :
    CodeInput.attributeChangedCallback usedT defT e (chars ("lang")) (some O) (some N) =
      CodeInput.update
        { e with
          codeElement := some (if (jsToLower N).isEmpty then { code with classList := removeClass (removeClass code.classList (chars ("language-") ++ jsToLower O)) (chars ("language-none")) } else { code with classList := addClass (removeClass (removeClass code.classList (chars ("language-") ++ jsToLower O)) (chars ("language-none"))) (chars ("language-") ++ jsToLower N) })
          preElement := some { pre with classList := removeClass (removeClass pre.classList (chars ("language-") ++ jsToLower O)) (chars ("language-none")) }
          textareaElement := some (if ta.placeholder = jsToLower O then { ta with placeholder := jsToLower N } else ta) }
        e._value := by
  have hcf : ¬ (e.isConnected = false) := by simp [hconn]
  have hv1 : ¬ (chars ("lang") = chars ("value")) := by decide
  have hv2 : ¬ (chars ("lang") = chars ("placeholder")) := by decide
  have hv3 : ¬ (chars ("lang") = chars ("template")) := by decide
  simp only [CodeInput.attributeChangedCallback, langCase, langCaseRest, hcf, htpl,
    hta, hpre, hcode, hv1, hv2, hv3, hshort, if_false, if_true, if_neg, jsDomString]
  rfl

/-- Witness for the amended C6: lang changes from "js" to "py" on an
Active element carrying `language-js` whose placeholder is "js". -/
theorem lang_attribute_reaction_witness :
    CodeInput.attributeChangedCallback (fun _ => none) none elemC6w (chars ("lang"))
        (some (chars ("js"))) (some (chars ("py"))) =
      CodeInput.update
        { elemC6w with
          codeElement := some (if (jsToLower (chars ("py"))).isEmpty then { codeC6w with classList := removeClass (removeClass codeC6w.classList (chars ("language-") ++ jsToLower (chars ("js")))) (chars ("language-none")) } else { codeC6w with classList := addClass (removeClass (removeClass codeC6w.classList (chars ("language-") ++ jsToLower (chars ("js")))) (chars ("language-none"))) (chars ("language-") ++ jsToLower (chars ("py"))) })
          preElement := some { preEmpty with classList := removeClass (removeClass preEmpty.classList (chars ("language-") ++ jsToLower (chars ("js")))) (chars ("language-none")) }
          textareaElement := some (if taC6w.placeholder = jsToLower (chars ("js")) then { taC6w with placeholder := jsToLower (chars ("py")) } else taC6w) }
        elemC6w._value :=
  lang_attribute_reaction (fun _ => none) none elemC6w taC6w preEmpty codeC6w idTemplate
    (chars ("js")) (chars ("py")) rfl rfl rfl rfl rfl (by decide)

/-- C7: on the first assignment of `lang` while Active the old value is
absent, and — provided the short-circuit on an already-present class does
not fire — the handler reaches `oldValue.toLowerCase()` unconditionally
and throws. -/
theorem lang_first_assignment_throws (usedT : Str → Option ResolvedTemplate)
    (defT : Option Str) (e : ElemState) (tpl : ResolvedTemplate) (code : CodeState) (n : Str)
    (hconn : e.isConnected = true) (htpl : e.template = some tpl)
    (hcode : e.codeElement = some code)
    (hshort : (chars ("language-") ++ jsToLower n) ∉ code.classList) :
    CodeInput.attributeChangedCallback usedT defT e (chars ("lang")) none (some n) =
      .error (.typeError, e) := by
  have hcf : ¬ (e.isConnected = false) := by simp [hconn]
  have hv1 : ¬ (chars ("lang") = chars ("value")) := by decide
  have hv2 : ¬ (chars ("lang") = chars ("placeholder")) := by decide
  have hv3 : ¬ (chars ("lang") = chars ("template")) := by decide
  simp only [CodeInput.attributeChangedCallback, langCase, langCaseRest, hcf, htpl,
    hcode, hv1, hv2, hv3, hshort, if_false, if_true, if_neg]
  rfl

/-- Witness for C7 on a concrete Active element with no language class. -/
theorem lang_first_assignment_throws_witness :
    CodeInput.attributeChangedCallback (fun _ => none) none activeElem (chars ("lang")) none
        (some (chars ("js"))) = .error (.typeError, activeElem) :=
  lang_first_assignment_throws (fun _ => none) none activeElem idTemplate codeEmpty
    (chars ("js")) rfl rfl rfl (by decide)

/- ------------------------------------------------------------------
   C8: updates before the surfaces exist.
   ------------------------------------------------------------------ -/

/-- C8 is false as stated: two `update` calls before the surfaces exist
retain BOTH queued values — each call adds its own deferred replay, no
call replaces the previously queued value. -/
theorem preActive_update_accumulates_cex :
    ((CodeInput.update blankElem (chars ("a"))).bind
        (fun e1 => CodeInput.update e1 (chars ("b")))).map (fun e2 => e2.pendingLoad)
      = .ok [LoadEvt.replayUpdate (chars ("a")), LoadEvt.replayUpdate (chars ("b"))] :=
  rfl

/-- C8 amended: every pre-Active `update vi` appends its own deferred
replay (nothing is replaced), and when the element reaches Active the
replays all run in order, so the final authoritative value and textarea
value equal the last queued value `vn`. -/
theorem preActive_update_defer_and_replay :
    (∀ (e : ElemState) (v : Str), e.ignoreValueUpdate = false → e.textareaElement = none →
      CodeInput.update e v =
        .ok { e with pendingLoad := e.pendingLoad ++ [LoadEvt.replayUpdate v] }) ∧
    (∀ (e : ElemState) (vs : List Str) (v : Str),
      ActiveInv e → e.pendingLoad = (vs ++ [v]).map LoadEvt.replayUpdate →
      (dispatchLoad e)._value = v ∧
      ∃ ta', (dispatchLoad e).textareaElement = some ta' ∧ ta'.value = v) := by
  constructor
  · intro e v hig hta
    simp [CodeInput.update, hig, hta]
  · intro e vs v hinv hpend
    have hfold : dispatchLoad e = List.foldl loadStep e e.pendingLoad := rfl
    rw [hfold, hpend, List.map_append, List.foldl_append]
    obtain ⟨h1, h2, h3, h4⟩ :=
      foldl_loadStep_activeInv (vs.map LoadEvt.replayUpdate) e hinv
    obtain ⟨ta, hta⟩ := Option.isSome_iff_exists.mp h1
    obtain ⟨code, hcode⟩ := Option.isSome_iff_exists.mp h2
    obtain ⟨tpl, htpl⟩ := Option.isSome_iff_exists.mp h3
    simp only [List.map_cons, List.map_nil, List.foldl_cons, List.foldl_nil]
    simp only [loadStep, runLoadEvt]
    rw [update_eq_of_active _ ta code tpl v h4 hta hcode htpl]
    refine ⟨rfl, if ta.value = v then ta else { ta with value := v }, rfl, ?_⟩
    by_cases hv : ta.value = v
    · simp [hv]
    · simp [hv]

/-- Witness for the amended C8: a pre-Active update queues its replay, and
an Active element with replays for "a" then "b" ends with value "b". -/
theorem preActive_update_defer_and_replay_witness :
    (CodeInput.update blankElem (chars ("a")) =
      .ok { blankElem with
        pendingLoad := blankElem.pendingLoad ++ [LoadEvt.replayUpdate (chars ("a"))] }) ∧
    ((dispatchLoad elemC8w)._value = chars ("b") ∧
      ∃ ta', (dispatchLoad elemC8w).textareaElement = some ta' ∧ ta'.value = chars ("b")) :=
  ⟨preActive_update_defer_and_replay.1 blankElem (chars ("a")) rfl rfl,
   preActive_update_defer_and_replay.2 elemC8w [chars ("a")] (chars ("b"))
     ⟨rfl, rfl, rfl, rfl⟩ rfl⟩

/- ------------------------------------------------------------------
   C9: event listener rebinding.
   ------------------------------------------------------------------ -/

theorem find?_append_singleton_of_all_false {κ β : Type} [BEq κ] [LawfulBEq κ]
    (l : List (κ × β)) (k : κ) (v : β)
    (hall : ∀ q ∈ l, (q.1 == k) = false) :
    List.find? (fun p => p.1 == k) (l ++ [(k, v)]) = some (k, v) := by
  induction l with
  | nil => simp [List.find?]
  | cons p rest ih =>
    have hp := hall p (by simp)
    rw [List.cons_append]
    simp only [List.find?, hp]
    exact ih (fun q hq => hall q (by simp [hq]))

theorem find?_map_replace {κ β : Type} [BEq κ] [LawfulBEq κ]
    (l : List (κ × β)) (k : κ) (v : β)
    (hsome : (l.any (fun q => q.1 == k)) = true) :
    List.find? (fun p => p.1 == k)
        (l.map (fun q => if (q.1 == k) = true then (k, v) else q)) = some (k, v) := by
  induction l with
  | nil => simp at hsome
  | cons p rest ih =>
    by_cases hp : (p.1 == k) = true
    · simp [List.find?, hp]
    · have hr : (rest.any (fun q => q.1 == k)) = true := by
        rcases List.any_eq_true.mp hsome with ⟨q, hq, hqk⟩
        rcases List.mem_cons.mp hq with heq | hq'
        · exact absurd (heq ▸ hqk) hp
        · exact List.any_eq_true.mpr ⟨q, hq', hqk⟩
      simp [List.find?, hp, ih hr]

theorem lookupK_upsertK_self {κ β : Type} [BEq κ] [LawfulBEq κ]
    (l : List (κ × β)) (k : κ) (v : β) :
    lookupK (upsertK l k v) k = some v := by
  unfold lookupK upsertK
  by_cases hany : (l.any (fun q => q.1 == k)) = true
  · rw [if_pos hany, find?_map_replace l k v hany]
    rfl
  · have hall : ∀ q ∈ l, (q.1 == k) = false := by
      intro q hq
      cases hval : q.1 == k
      · rfl
      · exact absurd (List.any_eq_true.mpr ⟨q, hq, hval⟩) hany
    rw [if_neg hany, find?_append_singleton_of_all_false l k v hall]
    rfl

theorem detachL_append_fresh (l : List (Str × CB)) (t : Str) (c : CB)
    (h : (t, c) ∉ l) : detachL (l ++ [(t, c)]) t c = l := by
  unfold detachL
  rw [List.filter_append]
  have h1 : List.filter (fun x => decide (x ≠ (t, c))) [(t, c)] = [] := by simp
  rw [h1, List.append_nil]
  refine List.filter_eq_self.mpr (fun a ha => ?_)
  simp only [ne_eq, decide_eq_true_eq]
  intro heq
  exact h (heq ▸ ha)

/-- The exact effect of `addEventListener` for a rebound event type on an
Active element (fresh bound id). -/
theorem addEventListener_sync_eq (e : ElemState) (ta : TextareaState) (type : Str) (L : Nat)
    (hta : e.textareaElement = some ta)
    (hsync : textareaSyncEvents.contains type = true)
    (hfresh : (type, CB.bound e.nextBoundId) ∉ ta.listeners) :
    CodeInput.addEventListener e type L =
      { e with
        boundEventCallbacks := upsertK e.boundEventCallbacks L e.nextBoundId
        nextBoundId := e.nextBoundId + 1
        textareaElement := some { ta with listeners := ta.listeners ++ [(type, CB.bound e.nextBoundId)] } } := by
  simp only [CodeInput.addEventListener, hsync, hta, attachL, if_true, if_neg hfresh]

/-- C9 is false as stated for the "input" type: after add-then-remove of
the same listener, the bound wrapper is still attached to the textarea —
`removeEventListener` only special-cases "change" and "selectionchange". -/
theorem removeEventListener_input_cex :
    (CodeInput.removeEventListener (CodeInput.addEventListener activeElem (chars ("input")) 7)
        (chars ("input")) 7).map (fun s => s.textareaElement.map (fun t => t.listeners))
      = .ok (some [(chars ("input"), CB.bound 0)]) :=
  rfl

/-- C9 amended: `addEventListener` always attaches a freshly bound wrapper
to the textarea for the four rebound types; a subsequent
`removeEventListener` of the same listener reference detaches exactly
that wrapper for "change" and "selectionchange", but for "invalid" and
"input" it falls through to the native removal with the raw listener and
the bound wrapper stays attached. -/
theorem eventListener_rebinding (e : ElemState) (ta : TextareaState) (L : Nat)
    (hta : e.textareaElement = some ta)
    (hfresh : ∀ t : Str, (t, CB.bound e.nextBoundId) ∉ ta.listeners) :
    ((CodeInput.removeEventListener (CodeInput.addEventListener e (chars ("change")) L)
        (chars ("change")) L).map (fun s => s.textareaElement.map (fun t => t.listeners)))
      = .ok (some ta.listeners) ∧
    ((CodeInput.removeEventListener (CodeInput.addEventListener e (chars ("selectionchange")) L)
        (chars ("selectionchange")) L).map (fun s => s.textareaElement.map (fun t => t.listeners)))
      = .ok (some ta.listeners) ∧
    ((CodeInput.removeEventListener (CodeInput.addEventListener e (chars ("invalid")) L)
        (chars ("invalid")) L).map (fun s => s.textareaElement.map (fun t => t.listeners)))
      = .ok (some (ta.listeners ++ [(chars ("invalid"), CB.bound e.nextBoundId)])) ∧
    ((CodeInput.removeEventListener (CodeInput.addEventListener e (chars ("input")) L)
        (chars ("input")) L).map (fun s => s.textareaElement.map (fun t => t.listeners)))
      = .ok (some (ta.listeners ++ [(chars ("input"), CB.bound e.nextBoundId)])) := by
  have hlook := lookupK_upsertK_self e.boundEventCallbacks L e.nextBoundId
  refine ⟨?_, ?_, ?_, ?_⟩
  · rw [addEventListener_sync_eq e ta (chars ("change")) L hta (by decide) (hfresh _)]
    have hdet := detachL_append_fresh ta.listeners (chars ("change")) (CB.bound e.nextBoundId)
      (hfresh _)
    simp [CodeInput.removeEventListener, hlook, hdet, Except.map]
  · rw [addEventListener_sync_eq e ta (chars ("selectionchange")) L hta (by decide) (hfresh _)]
    have hdet := detachL_append_fresh ta.listeners (chars ("selectionchange"))
      (CB.bound e.nextBoundId) (hfresh _)
    have hne1 : ¬ (chars ("selectionchange") = chars ("change")) := by decide
    simp [CodeInput.removeEventListener, hlook, hdet, hne1, Except.map]
  · rw [addEventListener_sync_eq e ta (chars ("invalid")) L hta (by decide) (hfresh _)]
    have hne1 : ¬ (chars ("invalid") = chars ("change")) := by decide
    have hne2 : ¬ (chars ("invalid") = chars ("selectionchange")) := by decide
    simp [CodeInput.removeEventListener, hne1, hne2, Except.map]
  · rw [addEventListener_sync_eq e ta (chars ("input")) L hta (by decide) (hfresh _)]
    have hne1 : ¬ (chars ("input") = chars ("change")) := by decide
    have hne2 : ¬ (chars ("input") = chars ("selectionchange")) := by decide
    simp [CodeInput.removeEventListener, hne1, hne2, Except.map]

/-- Witness for the amended C9 on a concrete Active element. -/
theorem eventListener_rebinding_witness :
    ((CodeInput.removeEventListener (CodeInput.addEventListener activeElem (chars ("change")) 7)
        (chars ("change")) 7).map (fun s => s.textareaElement.map (fun t => t.listeners)))
      = .ok (some taEmpty.listeners) ∧
    ((CodeInput.removeEventListener
        (CodeInput.addEventListener activeElem (chars ("selectionchange")) 7)
        (chars ("selectionchange")) 7).map (fun s => s.textareaElement.map (fun t => t.listeners)))
      = .ok (some taEmpty.listeners) ∧
    ((CodeInput.removeEventListener (CodeInput.addEventListener activeElem (chars ("invalid")) 7)
        (chars ("invalid")) 7).map (fun s => s.textareaElement.map (fun t => t.listeners)))
      = .ok (some (taEmpty.listeners ++ [(chars ("invalid"), CB.bound activeElem.nextBoundId)])) ∧
    ((CodeInput.removeEventListener (CodeInput.addEventListener activeElem (chars ("input")) 7)
        (chars ("input")) 7).map (fun s => s.textareaElement.map (fun t => t.listeners)))
      = .ok (some (taEmpty.listeners ++ [(chars ("input"), CB.bound activeElem.nextBoundId)])) :=
  eventListener_rebinding activeElem taEmpty 7 rfl (fun t => by simp [taEmpty])

/- ------------------------------------------------------------------
   C10: template attribute change to an unregistered name.
   ------------------------------------------------------------------ -/

/-- C10: changing the `template` attribute of an Active element to a name
that was never registered (no registered default either) throws a
TypeError — `this.template` is set to undefined and then its
`preElementStyled` is dereferenced — whereas the initial resolution path
`getTemplate` silently queues the element under that name instead. -/
theorem template_attribute_unregistered_throws (usedT : Str → Option ResolvedTemplate)
    (e : ElemState) (tpl : ResolvedTemplate) (n : Str) (oldValue : Option Str)
    (stR : RegState) (elemId : Nat)
    (hconn : e.isConnected = true) (htpl : e.template = some tpl)
    (hne : n.isEmpty = false)
    (hlook : usedT n = none)
    (hdef : stR.defaultTemplate = none)
    (hreg : lookupK stR.usedTemplates n = none) :
    CodeInput.attributeChangedCallback usedT none e (chars ("template")) oldValue (some n) =
      .error (.typeError, { e with template := none }) ∧
    (CodeInput.getTemplate stR elemId (some n)).1 = none ∧
    (CodeInput.getTemplate stR elemId (some n)).2.templateNotYetRegisteredQueue =
      upsertK stR.templateNotYetRegisteredQueue n
        ((lookupK stR.templateNotYetRegisteredQueue n).getD [] ++ [elemId]) := by
  have hcf : ¬ (e.isConnected = false) := by simp [hconn]
  have hne' : ¬ (n.isEmpty = true) := by simp [hne]
  have hv1 : ¬ (chars ("template") = chars ("value")) := by decide
  have hv2 : ¬ (chars ("template") = chars ("placeholder")) := by decide
  refine ⟨?_, ?_, ?_⟩
  · simp only [CodeInput.attributeChangedCallback, hcf, htpl, hv1, hv2, hne', if_false,
      if_true, if_neg]
    simp [hlook]
  · simp [CodeInput.getTemplate, hreg]
  · simp [CodeInput.getTemplate, hreg]

/-- Witness for C10 at a concrete Active element and empty registry. -/
theorem template_attribute_unregistered_throws_witness :
    CodeInput.attributeChangedCallback (fun _ => none) none activeElem (chars ("template"))
        none (some (chars ("x"))) =
      .error (.typeError, { activeElem with template := none }) ∧
    (CodeInput.getTemplate stEmpty 0 (some (chars ("x")))).1 = none ∧
    (CodeInput.getTemplate stEmpty 0 (some (chars ("x")))).2.templateNotYetRegisteredQueue =
      upsertK stEmpty.templateNotYetRegisteredQueue (chars ("x"))
        ((lookupK stEmpty.templateNotYetRegisteredQueue (chars ("x"))).getD [] ++ [0]) :=
  template_attribute_unregistered_throws (fun _ => none) activeElem idTemplate (chars ("x"))
    none stEmpty 0 rfl rfl rfl rfl rfl rfl

end CodeInputJs
